import Mathlib

/-!
Verification of the canvas scene synchronization core
(OrangeCanvas/canvas/scene.py) against its design specification.

The Python class CanvasScene is shallowly embedded as a Lean structure
holding the scene registries (node items, link items, the forward maps
from scheme entities to item identifiers, the three signal-mapper
tables, the connected change-notification listeners and the set of
items added to the underlying graphics scene).  Visual items are
identified by natural numbers allocated from a monotone counter; their
mutable state (position, widget description, widget category) lives in
an append-only table, mirroring Python object identity and aliasing.
Python exceptions are modelled with an explicit error type; every
operation returns the raised error (if any) together with the state at
the point the exception escaped, so partial mutations performed before
a raise are preserved exactly as in the source.
-/

deriving instance DecidableEq for Except

namespace OrangeScene

/-- Errors raised by the embedded operations.  keyError, valueError,
typeError and exception mirror the Python exception classes actually
raised by scene.py (KeyError from dict lookups, ValueError from
list.remove and the explicit raises, Exception from the editable
guards).  schemeError stands for an arbitrary error raised by the
domain model during commit.  missingEndpointError and
editingDisabledError are the typed errors named by the specification;
no code in scene.py defines or raises them, they exist here only so
that the specification claims mentioning them can be stated. -/
inductive Err where
  | keyError
  | valueError (msg : String)
  | typeError
  | exception (msg : String)
  | schemeError
  | missingEndpointError
  | editingDisabledError
deriving DecidableEq

/-- A widget description (items.NodeItem is constructed from one);
category is the optional category name attribute, none modelling
Python None and the empty string modelling a falsy string. -/
structure WidgetDesc where
  wid : Nat
  category : Option String
deriving DecidableEq

/-- A SchemeNode: identity, description and the stored position
attribute (none models Python None). -/
structure Node where
  nid : Nat
  description : WidgetDesc
  position : Option (Int × Int)
deriving DecidableEq

/-- A SchemeLink: identity, endpoint nodes and channel names, and the
enabled flag. -/
structure Link where
  lid : Nat
  sourceNode : Node
  sourceChannel : String
  sinkNode : Node
  sinkChannel : String
  enabled : Bool
deriving DecidableEq

/-- The mutable state of an items.NodeItem: position (QPointF with
integer coordinates suffice for the placement arithmetic of scene.py),
widget description and widget category. -/
structure NodeItem where
  pos : Int × Int
  widgetDesc : Option WidgetDesc
  widgetCategory : Option String
deriving DecidableEq

/-- The mutable state of an items.LinkItem: endpoint item identifiers,
channel names, enabled flag and channel-name visibility. -/
structure LinkItem where
  sourceItem : Nat
  sinkItem : Nat
  sourceName : String
  sinkName : String
  enabled : Bool
  channelNamesVisible : Bool
deriving DecidableEq

/-- The change-notification signals connected by add_node and
add_link. -/
inductive ConnKind where
  | positionChanged
  | titleChanged
  | progressChanged
  | processingStateChanged
  | enabledChanged
deriving DecidableEq

/-- The slot a signal is connected to: either a bound method of a
visual item, or a method of the scene itself. -/
inductive ConnTarget where
  | sceneHandler
  | item (itemId : Nat)
deriving DecidableEq

/-- One signal-slot connection: the signal kind, the identity of the
emitting scheme entity and the receiving slot. -/
structure Conn where
  kind : ConnKind
  source : Nat
  target : ConnTarget
deriving DecidableEq

/-- Modelled from the spec: the domain model collaborator (the scheme)
is external to scene.py; its add_node and add_link may reject an
entity with a validation failure.  The rejection behaviour is a
parameter of the scheme: rejectNode and rejectLink return the error
the corresponding add raises, or none when the add succeeds. -/
structure Scheme where
  nodes : List Node
  links : List Link
  rejectNode : Node → Option Err
  rejectLink : Link → Option Err

/-- Modelled from the spec: scheme.add_node appends the node on
success and raises the validation error otherwise. -/
def Scheme.add_node (s : Scheme) (n : Node) : Except Err Scheme :=
  match s.rejectNode n with
  | some e => .error e
  | none => .ok { s with nodes := s.nodes ++ [n] }

/-- Modelled from the spec: scheme.add_link appends the link on
success and raises the validation error otherwise. -/
def Scheme.add_link (s : Scheme) (l : Link) : Except Err Scheme :=
  match s.rejectLink l with
  | some e => .error e
  | none => .ok { s with links := s.links ++ [l] }

/-- The widget registry collaborator: a finite map from category names
to category descriptions. -/
abbrev Registry := List (String × String)

/-- Association-list lookup: the value of the first pair whose key
matches, as a Python dict read. -/
def alookup {α β : Type} [DecidableEq α] : List (α × β) → α → Option β
  | [], _ => none
  | p :: ps, k => if p.1 = k then some p.2 else alookup ps k

/-- Association-list erase: drop the first pair whose key matches, as
Python dict.pop on a key that is present. -/
def aerase {α β : Type} [DecidableEq α] : List (α × β) → α → List (α × β)
  | [], _ => []
  | p :: ps, k => if p.1 = k then ps else p :: aerase ps k

/-- Association-list insert: overwrite the first pair whose key
matches, or append, as a Python dict write. -/
def ainsert {α β : Type} [DecidableEq α] : List (α × β) → α → β → List (α × β)
  | [], k, v => [(k, v)]
  | p :: ps, k, v => if p.1 = k then (k, v) :: ps else p :: ainsert ps k v

/-- Modelled from the spec: the registry collaborator resolves a
category name to a category description and reports a not-found
condition (KeyError) when the name is absent or is not a string
key present in the registry (a None argument also fails the lookup). -/
def registryCategory (r : Registry) (name : Option String) : Except Err String :=
  match name with
  | none => .error .keyError
  | some s =>
    match alookup r s with
    | some c => .ok c
    | none => .error .keyError

/-- Python truthiness of an optional string attribute: None and the
empty string are falsy. -/
def strOptTruthy : Option String → Bool
  | none => false
  | some s => !s.isEmpty

/-- QSignalMapper.setPyMapping item item: register the item in the
mapper table (re-registering is idempotent since the tag is the item
itself). -/
def setPyMapping (m : List Nat) (i : Nat) : List Nat :=
  if i ∈ m then m else m ++ [i]

/-- QSignalMapper.removePyMappings item: drop every mapping for the
item; safe when no mapping is present. -/
def removePyMappings (m : List Nat) (i : Nat) : List Nat :=
  m.filter (fun j => j != i)

/-- Python list.remove: drop the first occurrence, raising ValueError
when the element is absent. -/
def listRemove (l : List Nat) (i : Nat) : Except Err (List Nat) :=
  if i ∈ l then .ok (l.erase i) else .error (.valueError "list.remove(x): x not in list")

/-- PyQt signal disconnect: remove the given connection, raising when
it is not present. -/
def disconnect (cs : List Conn) (c : Conn) : Except Err (List Conn) :=
  if c ∈ cs then .ok (cs.erase c) else .error .typeError

/-- The CanvasScene state: the scheme being edited, the optional
registry, the table of all node items ever constructed (items) and of
all link items (litems), the scene registries __node_items,
__item_for_node, __link_items, __item_for_link, the editable flag,
channel-name visibility, the three signal-mapper tables, the connected
change listeners, the identifiers currently added to the underlying
QGraphicsScene, and the allocator for fresh item identities. -/
structure CanvasScene where
  scheme : Scheme
  registry : Option Registry
  items : List (Nat × NodeItem)
  litems : List (Nat × LinkItem)
  node_items : List Nat
  item_for_node : List (Node × Nat)
  link_items : List Nat
  item_for_link : List (Link × Nat)
  editable : Bool
  channel_names_visible : Bool
  activated_map : List Nat
  hovered_map : List Nat
  position_change_map : List Nat
  connections : List Conn
  scene_items : List Nat
  next_id : Nat

/-- A scene freshly constructed and bound to a scheme and registry:
every registry and table empty, editable. -/
def initScene (s : Scheme) (reg : Option Registry) : CanvasScene :=
  { scheme := s, registry := reg, items := [], litems := [],
    node_items := [], item_for_node := [], link_items := [],
    item_for_link := [], editable := true, channel_names_visible := true,
    activated_map := [], hovered_map := [], position_change_map := [],
    connections := [], scene_items := [], next_id := 0 }

/-- Read the position of a node item from the item table ((0, 0) for
an identifier that was never allocated; all actual uses look up live
items). -/
def itemPos (sc : CanvasScene) (itemId : Nat) : Int × Int :=
  match alookup sc.items itemId with
  | some it => it.pos
  | none => (0, 0)

/-- Replace the position of a node item state. -/
def updPos (p : Int × Int) (it : NodeItem) : NodeItem :=
  { pos := p, widgetDesc := it.widgetDesc, widgetCategory := it.widgetCategory }

/-- Replace the widget category of a node item state. -/
def updCategory (c : String) (it : NodeItem) : NodeItem :=
  { pos := it.pos, widgetDesc := it.widgetDesc, widgetCategory := some c }

/-- Replace the enabled flag of a link item state. -/
def updEnabled (b : Bool) (it : LinkItem) : LinkItem :=
  { it with enabled := b }

/-- item.setPos: update the position of the node item in the item
table. -/
def setPos (sc : CanvasScene) (itemId : Nat) (p : Int × Int) : CanvasScene :=
  { sc with items :=
      sc.items.map (fun q => if q.1 = itemId then (q.1, updPos p q.2) else q) }

/-- item.setWidgetCategory: update the category of the node item in
the item table. -/
def setWidgetCategory (sc : CanvasScene) (itemId : Nat) (c : String) : CanvasScene :=
  { sc with items :=
      sc.items.map (fun q => if q.1 = itemId then (q.1, updCategory c q.2) else q) }

/-- item.setEnabled on a link item. -/
def setLinkEnabled (sc : CanvasScene) (linkId : Nat) (b : Bool) : CanvasScene :=
  { sc with litems :=
      sc.litems.map (fun q => if q.1 = linkId then (q.1, updEnabled b q.2) else q) }

/-- CanvasScene.add_node_item (scene.py lines 214 to 245): raise
ValueError when the item is already in __node_items; when its position
is null, place it to the right of the last node item by (150, 0), or
at (150, 150) when the scene holds no node items; register the item in
the activation, hover and position-change mapper tables; add it to the
graphics scene; append it to __node_items. -/
def add_node_item (sc : CanvasScene) (itemId : Nat) : Except Err Nat × CanvasScene :=
  if itemId ∈ sc.node_items then
    (.error (.valueError "already in the scene"), sc)
  else
    let sc :=
      if itemPos sc itemId = ((0 : Int), (0 : Int)) then
        let p : Int × Int :=
          match sc.node_items.getLast? with
          | some lastId => ((itemPos sc lastId).1 + 150, (itemPos sc lastId).2)
          | none => (150, 150)
        setPos sc itemId p
      else sc
    let sc := { sc with
      activated_map := setPyMapping sc.activated_map itemId,
      hovered_map := setPyMapping sc.hovered_map itemId,
      position_change_map := setPyMapping sc.position_change_map itemId }
    let sc := { sc with scene_items := sc.scene_items ++ [itemId] }
    let sc := { sc with node_items := sc.node_items ++ [itemId] }
    (.ok itemId, sc)

/-- CanvasScene.new_node_item (scene.py lines 271 to 291): construct a
fresh NodeItem carrying the widget description; when no category was
passed, the registry is set and the description category is truthy,
resolve the category through an unguarded registry lookup (a KeyError
escapes); when the category is still unresolved and the registry is
set, retry the lookup guarded by a try/except that swallows KeyError;
finally set the resolved category, if any, on the item. -/
def new_node_item (sc : CanvasScene) (wd : WidgetDesc) (category_desc : Option String) :
    Except Err Nat × CanvasScene :=
  let itemId := sc.next_id
  let fresh : NodeItem := { pos := (0, 0), widgetDesc := some wd, widgetCategory := none }
  let sc := { sc with items := sc.items ++ [(itemId, fresh)], next_id := sc.next_id + 1 }
  let firstLookup : Except Err (Option String) :=
    match category_desc, sc.registry with
    | none, some reg =>
      if strOptTruthy wd.category then
        match registryCategory reg wd.category with
        | .ok c => .ok (some c)
        | .error e => .error e
      else .ok none
    | c, _ => .ok c
  match firstLookup with
  | .error e => (.error e, sc)
  | .ok cd1 =>
    let cd2 : Option String :=
      match cd1, sc.registry with
      | none, some reg =>
        match registryCategory reg wd.category with
        | .ok c => some c
        | .error _ => none
      | c, _ => c
    let sc :=
      match cd2 with
      | some c => setWidgetCategory sc itemId c
      | none => sc
    (.ok itemId, sc)

/-- The four change-notification connections registered by add_node:
position_changed to the scene handler, title_changed, progress_changed
and processing_state_changed to the item. -/
def nodeConns (n : Node) (itemId : Nat) : List Conn :=
  [⟨.positionChanged, n.nid, .sceneHandler⟩,
   ⟨.titleChanged, n.nid, .item itemId⟩,
   ⟨.progressChanged, n.nid, .item itemId⟩,
   ⟨.processingStateChanged, n.nid, .item itemId⟩]

/-- The middle part of CanvasScene.add_node after the item was
constructed: set the item position from the node when the stored
position attribute is truthy, record the mapping in __item_for_node
and connect the four change listeners. -/
def add_node_mid (sc : CanvasScene) (n : Node) (itemId : Nat) : CanvasScene :=
  let sc :=
    match n.position with
    | some p => setPos sc itemId p
    | none => sc
  let sc := { sc with item_for_node := ainsert sc.item_for_node n itemId }
  { sc with connections := sc.connections ++ nodeConns n itemId }

/-- CanvasScene.add_node (scene.py lines 247 to 269): return the
existing item when the node is already mapped; otherwise construct an
item from the node description, set its position from the node when
the stored position attribute is truthy, record the mapping in
__item_for_node, connect the four change listeners (add_node_mid) and
hand the item to add_node_item. -/
def add_node (sc : CanvasScene) (n : Node) : Except Err Nat × CanvasScene :=
  match alookup sc.item_for_node n with
  | some itemId => (.ok itemId, sc)
  | none =>
    match new_node_item sc n.description none with
    | (.error e, sc) => (.error e, sc)
    | (.ok itemId, sc) => add_node_item (add_node_mid sc n itemId) itemId

/-- CanvasScene.remove_node_item (scene.py lines 293 to 305): remove
the item from the activation and hover mapper tables (the
position-change table is not touched), hide it, remove it from the
graphics scene and remove it from __node_items (list.remove raises
ValueError when it is absent). -/
def remove_node_item (sc : CanvasScene) (itemId : Nat) : Except Err Unit × CanvasScene :=
  let sc := { sc with
    activated_map := removePyMappings sc.activated_map itemId,
    hovered_map := removePyMappings sc.hovered_map itemId }
  let sc := { sc with scene_items := sc.scene_items.filter (fun j => j != itemId) }
  match listRemove sc.node_items itemId with
  | .ok l => (.ok (), { sc with node_items := l })
  | .error e => (.error e, sc)

/-- CanvasScene.remove_node (scene.py lines 307 to 319): pop the
mapping for the node (KeyError when absent), disconnect the four
change listeners, then remove the item through remove_node_item. -/
def remove_node (sc : CanvasScene) (n : Node) : Except Err Unit × CanvasScene :=
  match alookup sc.item_for_node n with
  | none => (.error .keyError, sc)
  | some itemId =>
    let sc := { sc with item_for_node := aerase sc.item_for_node n }
    match disconnect sc.connections ⟨.positionChanged, n.nid, .sceneHandler⟩ with
    | .error e => (.error e, sc)
    | .ok cs =>
      let sc := { sc with connections := cs }
      match disconnect sc.connections ⟨.titleChanged, n.nid, .item itemId⟩ with
      | .error e => (.error e, sc)
      | .ok cs =>
        let sc := { sc with connections := cs }
        match disconnect sc.connections ⟨.progressChanged, n.nid, .item itemId⟩ with
        | .error e => (.error e, sc)
        | .ok cs =>
          let sc := { sc with connections := cs }
          match disconnect sc.connections ⟨.processingStateChanged, n.nid, .item itemId⟩ with
          | .error e => (.error e, sc)
          | .ok cs =>
            let sc := { sc with connections := cs }
            remove_node_item sc itemId

/-- CanvasScene.new_link_item (scene.py lines 366 to 383): construct a
fresh LinkItem tying the endpoint items, carrying the channel names
and the scene channel-name visibility. -/
def new_link_item (sc : CanvasScene) (sourceId : Nat) (sourceChannel : String)
    (sinkId : Nat) (sinkChannel : String) : Nat × CanvasScene :=
  let linkId := sc.next_id
  let li : LinkItem :=
    { sourceItem := sourceId, sinkItem := sinkId,
      sourceName := sourceChannel, sinkName := sinkChannel,
      enabled := true, channelNamesVisible := sc.channel_names_visible }
  (linkId, { sc with litems := sc.litems ++ [(linkId, li)], next_id := sc.next_id + 1 })

/-- CanvasScene.add_link_item (scene.py lines 326 to 341): add the
item to the graphics scene when not already there, append it to
__link_items. -/
def add_link_item (sc : CanvasScene) (linkId : Nat) : Nat × CanvasScene :=
  let sc :=
    if linkId ∈ sc.scene_items then sc
    else { sc with scene_items := sc.scene_items ++ [linkId] }
  (linkId, { sc with link_items := sc.link_items ++ [linkId] })

/-- CanvasScene.add_link (scene.py lines 343 to 364): return the
existing item when the link is already mapped; otherwise resolve both
endpoint items from __item_for_node (an unhandled KeyError escapes
when either endpoint node was never added), construct the link item,
apply the enabled flag, connect the enabled_changed listener, add the
item through add_link_item and record the mapping in
__item_for_link. -/
def add_link (sc : CanvasScene) (l : Link) : Except Err Nat × CanvasScene :=
  match alookup sc.item_for_link l with
  | some linkId => (.ok linkId, sc)
  | none =>
    match alookup sc.item_for_node l.sourceNode with
    | none => (.error .keyError, sc)
    | some src =>
      match alookup sc.item_for_node l.sinkNode with
      | none => (.error .keyError, sc)
      | some snk =>
        let (linkId, sc) := new_link_item sc src l.sourceChannel snk l.sinkChannel
        let sc := setLinkEnabled sc linkId l.enabled
        let sc := { sc with connections := sc.connections ++ [⟨.enabledChanged, l.lid, .item linkId⟩] }
        let (_, sc) := add_link_item sc linkId
        let sc := { sc with item_for_link := ainsert sc.item_for_link l linkId }
        (.ok linkId, sc)

/-- CanvasScene.remove_link_item (scene.py lines 385 to 397): remove
the item from __link_items (ValueError when absent), detach its
anchors and remove it from the graphics scene. -/
def remove_link_item (sc : CanvasScene) (linkId : Nat) : Except Err Nat × CanvasScene :=
  match listRemove sc.link_items linkId with
  | .error e => (.error e, sc)
  | .ok l =>
    let sc := { sc with link_items := l }
    let sc := { sc with scene_items := sc.scene_items.filter (fun j => j != linkId) }
    (.ok linkId, sc)

/-- CanvasScene.remove_link (scene.py lines 399 to 406): pop the
mapping (KeyError when absent), disconnect the enabled_changed
listener, then remove the item through remove_link_item. -/
def remove_link (sc : CanvasScene) (l : Link) : Except Err Nat × CanvasScene :=
  match alookup sc.item_for_link l with
  | none => (.error .keyError, sc)
  | some linkId =>
    let sc := { sc with item_for_link := aerase sc.item_for_link l }
    match disconnect sc.connections ⟨.enabledChanged, l.lid, .item linkId⟩ with
    | .error e => (.error e, sc)
    | .ok cs =>
      let sc := { sc with connections := cs }
      remove_link_item sc linkId

/-- CanvasScene.commit_scheme_node (scene.py lines 492 to 513): raise
a plain Exception when the scene is not editable, ValueError when the
node has no item; attempt scheme.add_node, and on any error remove the
speculative item through remove_node_item and re-raise (an error from
the removal itself replaces the original, as in a Python except
block). -/
def commit_scheme_node (sc : CanvasScene) (n : Node) : Except Err Unit × CanvasScene :=
  if !sc.editable then
    (.error (.exception "Scheme not editable."), sc)
  else
    match alookup sc.item_for_node n with
    | none => (.error (.valueError "No NodeItem for node."), sc)
    | some itemId =>
      match sc.scheme.add_node n with
      | .error e =>
        match remove_node_item sc itemId with
        | (.ok _, sc) => (.error e, sc)
        | (.error e2, sc) => (.error e2, sc)
      | .ok s => (.ok (), { sc with scheme := s })

/-- CanvasScene.commit_scheme_link (scene.py lines 515 to 526): raise
a plain Exception when the scene is not editable, ValueError when the
link has no item; attempt scheme.add_link with no error handling and
no rollback. -/
def commit_scheme_link (sc : CanvasScene) (l : Link) : Except Err Unit × CanvasScene :=
  if !sc.editable then
    (.error (.exception "Scheme not editable"), sc)
  else
    match alookup sc.item_for_link l with
    | none => (.error (.valueError "No LinkItem for link."), sc)
    | some _ =>
      match sc.scheme.add_link l with
      | .error e => (.error e, sc)
      | .ok s => (.ok (), { sc with scheme := s })

/-- CanvasScene.item_for_node (scene.py lines 534 to 537): forward
lookup in __item_for_node (a Python KeyError on a missing node is
rendered as none). -/
def item_for_node (sc : CanvasScene) (n : Node) : Option Nat :=
  alookup sc.item_for_node n

/-- CanvasScene.node_for_item (scene.py lines 528 to 532): build the
reversed dictionary of __item_for_node (later entries overwrite
earlier ones on a duplicated value, as in a Python dict comprehension)
and look the item up in it. -/
def node_for_item (sc : CanvasScene) (itemId : Nat) : Option Node :=
  (sc.item_for_node.reverse.find? (fun p => p.2 == itemId)).map (fun p => p.1)

/-- CanvasScene.item_for_link (scene.py lines 545 to 548). -/
def item_for_link (sc : CanvasScene) (l : Link) : Option Nat :=
  alookup sc.item_for_link l

/-- The scene operations a client can drive the scene with; reachable
scene states are those produced by running a list of these from a
fresh scene. -/
inductive Op where
  | addNode (n : Node)
  | removeNode (n : Node)
  | commitNode (n : Node)
  | addLink (l : Link)
  | removeLink (l : Link)
  | commitLink (l : Link)
deriving DecidableEq

/-- Apply one operation, keeping the state at the point an exception
escaped when the operation raises. -/
def applyOp (sc : CanvasScene) (op : Op) : CanvasScene :=
  match op with
  | .addNode n => (add_node sc n).2
  | .removeNode n => (remove_node sc n).2
  | .commitNode n => (commit_scheme_node sc n).2
  | .addLink l => (add_link sc l).2
  | .removeLink l => (remove_link sc l).2
  | .commitLink l => (commit_scheme_link sc l).2

/-- Run a list of operations from a scene state. -/
def run (sc : CanvasScene) (ops : List Op) : CanvasScene :=
  ops.foldl applyOp sc

section AssocLemmas

variable {α β : Type} [DecidableEq α]

theorem alookup_append (l1 l2 : List (α × β)) (k : α) :
    alookup (l1 ++ l2) k =
      match alookup l1 k with
      | some v => some v
      | none => alookup l2 k := by
  induction l1 with
  | nil => simp [alookup]
  | cons p ps ih =>
    by_cases h : p.1 = k <;> simp [alookup, h, ih]

theorem alookup_append_of_none {l1 : List (α × β)} (l2 : List (α × β)) {k : α}
    (h : alookup l1 k = none) : alookup (l1 ++ l2) k = alookup l2 k := by
  rw [alookup_append, h]

theorem ainsert_of_lookup_none {l : List (α × β)} {k : α} (v : β)
    (h : alookup l k = none) : ainsert l k v = l ++ [(k, v)] := by
  induction l with
  | nil => simp [ainsert]
  | cons p ps ih =>
    by_cases hp : p.1 = k
    · simp [alookup, hp] at h
    · simp only [alookup, hp, if_false, if_neg hp] at h ⊢
      simp [ainsert, hp, ih h]

theorem alookup_mem {l : List (α × β)} {k : α} {v : β}
    (h : alookup l k = some v) : (k, v) ∈ l := by
  induction l with
  | nil => simp [alookup] at h
  | cons p ps ih =>
    by_cases hp : p.1 = k
    · simp only [alookup, if_pos hp, Option.some.injEq] at h
      cases p with
      | mk a b =>
        simp only at hp h
        subst hp
        subst h
        exact List.mem_cons_self _ _
    · simp only [alookup, if_neg hp] at h
      exact List.mem_cons_of_mem _ (ih h)

theorem alookup_eq_none_of_forall {l : List (α × β)} {k : α}
    (h : ∀ p ∈ l, p.1 ≠ k) : alookup l k = none := by
  induction l with
  | nil => rfl
  | cons p ps ih =>
    have hp : p.1 ≠ k := h p (List.mem_cons_self p ps)
    simp only [alookup, if_neg hp]
    exact ih (fun q hq => h q (List.mem_cons_of_mem _ hq))

theorem aerase_sublist (l : List (α × β)) (k : α) : (aerase l k).Sublist l := by
  induction l with
  | nil => simp [aerase]
  | cons p ps ih =>
    by_cases hp : p.1 = k
    · simp only [aerase, if_pos hp]
      exact (List.sublist_cons_self p ps)
    · simp only [aerase, if_neg hp]
      exact ih.cons₂ p

theorem alookup_map_upd (l : List (α × β)) (i j : α) (f : β → β) :
    alookup (l.map (fun q => if q.1 = i then (q.1, f q.2) else q)) j =
      if i = j then (alookup l j).map f else alookup l j := by
  induction l with
  | nil => by_cases h : i = j <;> simp [alookup, h]
  | cons p ps ih =>
    simp only [List.map_cons]
    by_cases hpi : p.1 = i
    · rw [if_pos hpi]
      by_cases hpj : p.1 = j
      · have hij : i = j := hpi.symm.trans hpj
        simp [alookup, hpj, hij]
      · have hij : ¬ i = j := fun hc => hpj (hpi.trans hc)
        simp only [alookup, if_neg hpj, if_neg hij]
        rw [ih, if_neg hij]
    · rw [if_neg hpi]
      by_cases hpj : p.1 = j
      · have hij : ¬ i = j := fun hc => hpi (hpj.trans hc.symm)
        simp [alookup, hpj, hij]
      · simp only [alookup, if_neg hpj]
        rw [ih]

theorem map_fst_map_upd (l : List (α × β)) (i : α) (f : β → β) :
    (l.map (fun q => if q.1 = i then (q.1, f q.2) else q)).map Prod.fst =
      l.map Prod.fst := by
  induction l with
  | nil => rfl
  | cons p ps ih =>
    by_cases hpi : p.1 = i <;> simp [hpi, ih]

end AssocLemmas

section ItemPosLemmas

theorem itemPos_setPos_self {sc : CanvasScene} {i : Nat} (p : Int × Int)
    (h : alookup sc.items i ≠ none) : itemPos (setPos sc i p) i = p := by
  unfold itemPos setPos
  rw [alookup_map_upd, if_pos rfl]
  cases hl : alookup sc.items i with
  | none => exact absurd hl h
  | some it => rfl

theorem itemPos_setPos_ne {sc : CanvasScene} {i j : Nat} (p : Int × Int)
    (h : i ≠ j) : itemPos (setPos sc i p) j = itemPos sc j := by
  unfold itemPos setPos
  rw [alookup_map_upd, if_neg h]

theorem itemPos_setWidgetCategory (sc : CanvasScene) (i j : Nat) (c : String) :
    itemPos (setWidgetCategory sc i c) j = itemPos sc j := by
  unfold itemPos setWidgetCategory
  rw [alookup_map_upd]
  by_cases h : i = j
  · rw [if_pos h]
    cases alookup sc.items j <;> rfl
  · rw [if_neg h]

theorem alookup_append_single_self {l : List (Nat × NodeItem)} {i : Nat} (it : NodeItem)
    (h : ∀ p ∈ l, p.1 ≠ i) : alookup (l ++ [(i, it)]) i = some it := by
  rw [alookup_append_of_none _ (alookup_eq_none_of_forall h)]
  simp [alookup]

theorem alookup_append_single_ne {l : List (Nat × NodeItem)} {i j : Nat} (it : NodeItem)
    (h : i ≠ j) : alookup (l ++ [(i, it)]) j = alookup l j := by
  rw [alookup_append]
  cases hl : alookup l j with
  | some v => rfl
  | none => simp [alookup, h]

end ItemPosLemmas

section NewNodeItemLemmas

/-- Every field of the scene other than the item table and the
identity allocator is untouched by new_node_item; the allocator
advances by one and the item table gains exactly the key next_id. -/
theorem new_node_item_fields (sc : CanvasScene) (wd : WidgetDesc) (cd : Option String) :
    (new_node_item sc wd cd).2.next_id = sc.next_id + 1 ∧
    (new_node_item sc wd cd).2.items.map Prod.fst = sc.items.map Prod.fst ++ [sc.next_id] ∧
    (new_node_item sc wd cd).2.node_items = sc.node_items ∧
    (new_node_item sc wd cd).2.item_for_node = sc.item_for_node ∧
    (new_node_item sc wd cd).2.link_items = sc.link_items ∧
    (new_node_item sc wd cd).2.item_for_link = sc.item_for_link ∧
    (new_node_item sc wd cd).2.connections = sc.connections ∧
    (new_node_item sc wd cd).2.scene_items = sc.scene_items ∧
    (new_node_item sc wd cd).2.activated_map = sc.activated_map ∧
    (new_node_item sc wd cd).2.hovered_map = sc.hovered_map ∧
    (new_node_item sc wd cd).2.position_change_map = sc.position_change_map ∧
    (new_node_item sc wd cd).2.editable = sc.editable ∧
    (new_node_item sc wd cd).2.scheme = sc.scheme ∧
    (new_node_item sc wd cd).2.litems = sc.litems := by
  unfold new_node_item
  dsimp only
  split
  · simp
  · split
    · simp [setWidgetCategory, map_fst_map_upd]
      intro a b _
      split <;> rfl
    · simp

/-- A successful new_node_item returns the freshly allocated
identity. -/
theorem new_node_item_ok {sc : CanvasScene} {wd : WidgetDesc} {cd : Option String} {i : Nat}
    (h : (new_node_item sc wd cd).1 = .ok i) : i = sc.next_id := by
  unfold new_node_item at h
  dsimp only at h
  split at h
  · exact absurd h (by simp)
  · split at h <;> simpa using h.symm

/-- The freshly constructed item has a null position (given that the
allocated identity is really fresh in the item table). -/
theorem new_node_item_pos (sc : CanvasScene) (wd : WidgetDesc) (cd : Option String)
    (hfresh : ∀ p ∈ sc.items, p.1 ≠ sc.next_id) :
    itemPos (new_node_item sc wd cd).2 sc.next_id = ((0 : Int), (0 : Int)) := by
  unfold new_node_item
  dsimp only
  split
  · unfold itemPos
    rw [alookup_append_single_self _ hfresh]
  · split
    · unfold itemPos setWidgetCategory
      dsimp only
      rw [alookup_map_upd, if_pos rfl, alookup_append_single_self _ hfresh]
      rfl
    · unfold itemPos
      rw [alookup_append_single_self _ hfresh]

/-- The position of any other item is untouched by new_node_item. -/
theorem new_node_item_pos_ne (sc : CanvasScene) (wd : WidgetDesc) (cd : Option String)
    {j : Nat} (h : sc.next_id ≠ j) :
    itemPos (new_node_item sc wd cd).2 j = itemPos sc j := by
  unfold new_node_item
  dsimp only
  split
  · unfold itemPos
    rw [alookup_append_single_ne _ h]
  · split
    · unfold itemPos setWidgetCategory
      dsimp only
      rw [alookup_map_upd, if_neg h, alookup_append_single_ne _ h]
    · unfold itemPos
      rw [alookup_append_single_ne _ h]

end NewNodeItemLemmas

theorem alookup_ne_none_of_mem_keys {α β : Type} [DecidableEq α] {l : List (α × β)} {k : α}
    (h : k ∈ l.map Prod.fst) : alookup l k ≠ none := by
  induction l with
  | nil => simp at h
  | cons p ps ih =>
    by_cases hp : p.1 = k
    · simp [alookup, hp]
    · simp only [List.map_cons, List.mem_cons] at h
      rcases h with h | h
      · exact absurd h.symm hp
      · simp only [alookup, if_neg hp]
        exact ih h

theorem itemPos_eq_of_items_eq {sc sc2 : CanvasScene} (h : sc2.items = sc.items) (j : Nat) :
    itemPos sc2 j = itemPos sc j := by
  unfold itemPos
  rw [h]

@[simp] theorem add_node_mid_node_items (sc : CanvasScene) (n : Node) (i : Nat) :
    (add_node_mid sc n i).node_items = sc.node_items := by
  unfold add_node_mid
  cases n.position <;> rfl

@[simp] theorem add_node_mid_item_for_node (sc : CanvasScene) (n : Node) (i : Nat) :
    (add_node_mid sc n i).item_for_node = ainsert sc.item_for_node n i := by
  unfold add_node_mid
  cases n.position <;> rfl

@[simp] theorem add_node_mid_next_id (sc : CanvasScene) (n : Node) (i : Nat) :
    (add_node_mid sc n i).next_id = sc.next_id := by
  unfold add_node_mid
  cases n.position <;> rfl

@[simp] theorem add_node_mid_connections (sc : CanvasScene) (n : Node) (i : Nat) :
    (add_node_mid sc n i).connections = sc.connections ++ nodeConns n i := by
  unfold add_node_mid
  cases n.position <;> rfl

@[simp] theorem add_node_mid_scheme (sc : CanvasScene) (n : Node) (i : Nat) :
    (add_node_mid sc n i).scheme = sc.scheme := by
  unfold add_node_mid
  cases n.position <;> rfl

@[simp] theorem add_node_mid_items_fst (sc : CanvasScene) (n : Node) (i : Nat) :
    (add_node_mid sc n i).items.map Prod.fst = sc.items.map Prod.fst := by
  unfold add_node_mid
  cases n.position
  · rfl
  · exact map_fst_map_upd _ _ _

/-- The position of the item being added after add_node_mid: the
stored node position when truthy, otherwise whatever it already
was. -/
theorem add_node_mid_pos_self (sc : CanvasScene) (n : Node) (i : Nat)
    (hkey : alookup sc.items i ≠ none) :
    itemPos (add_node_mid sc n i) i =
      match n.position with
      | some p => p
      | none => itemPos sc i := by
  unfold add_node_mid
  cases hp : n.position with
  | some p =>
    dsimp only
    exact itemPos_setPos_self p hkey
  | none => rfl

/-- The position of every other item is untouched by add_node_mid. -/
theorem add_node_mid_pos_ne (sc : CanvasScene) (n : Node) {i j : Nat} (h : i ≠ j) :
    itemPos (add_node_mid sc n i) j = itemPos sc j := by
  unfold add_node_mid
  cases hp : n.position with
  | some p =>
    dsimp only
    exact itemPos_setPos_ne p h
  | none => rfl

section Invariant

/-- The structural invariant of a reachable scene state: every item
identity in the item table, the node-item list and the forward node
map is below the allocator, the node-item list has no duplicates and
the forward map never maps two nodes to the same item. -/
structure Inv (sc : CanvasScene) : Prop where
  heapLt : ∀ i ∈ sc.items.map Prod.fst, i < sc.next_id
  nodeLt : ∀ i ∈ sc.node_items, i < sc.next_id
  nodeNodup : sc.node_items.Nodup
  mapLt : ∀ i ∈ sc.item_for_node.map Prod.snd, i < sc.next_id
  mapValsNodup : (sc.item_for_node.map Prod.snd).Nodup

/-- Transport of the invariant along an operation that keeps the item
table keys, only shrinks the node-item list and the forward map, and
never decreases the allocator. -/
theorem inv_of_parts (sc' sc : CanvasScene) (h : Inv sc)
    (hitems : sc'.items.map Prod.fst = sc.items.map Prod.fst)
    (hnext : sc.next_id ≤ sc'.next_id)
    (hnode : sc'.node_items.Sublist sc.node_items)
    (hmap : (sc'.item_for_node.map Prod.snd).Sublist (sc.item_for_node.map Prod.snd)) :
    Inv sc' := by
  refine ⟨?_, ?_, ?_, ?_, ?_⟩
  · intro i hi
    rw [hitems] at hi
    exact lt_of_lt_of_le (h.heapLt i hi) hnext
  · intro i hi
    exact lt_of_lt_of_le (h.nodeLt i (hnode.mem hi)) hnext
  · exact h.nodeNodup.sublist hnode
  · intro i hi
    exact lt_of_lt_of_le (h.mapLt i (hmap.mem hi)) hnext
  · exact h.mapValsNodup.sublist hmap

theorem inv_remove_node_item (sc : CanvasScene) (i : Nat) (h : Inv sc) :
    Inv (remove_node_item sc i).2 := by
  unfold remove_node_item
  dsimp only
  split
  · rename_i l hl
    have hsub : l.Sublist sc.node_items := by
      by_cases hm : i ∈ sc.node_items
      · simp only [listRemove, if_pos hm, Except.ok.injEq] at hl
        rw [← hl]
        exact List.erase_sublist _ _
      · simp [listRemove, hm] at hl
    exact inv_of_parts _ _ h rfl le_rfl hsub (List.Sublist.refl _)
  · exact inv_of_parts _ _ h rfl le_rfl (List.Sublist.refl _) (List.Sublist.refl _)

theorem inv_remove_node (sc : CanvasScene) (n : Node) (h : Inv sc) :
    Inv (remove_node sc n).2 := by
  have hsub : ((aerase sc.item_for_node n).map Prod.snd).Sublist
      (sc.item_for_node.map Prod.snd) := (aerase_sublist _ _).map _
  unfold remove_node
  dsimp only
  split
  · exact h
  · split
    · exact inv_of_parts _ _ h rfl le_rfl (List.Sublist.refl _) hsub
    · split
      · exact inv_of_parts _ _ h rfl le_rfl (List.Sublist.refl _) hsub
      · split
        · exact inv_of_parts _ _ h rfl le_rfl (List.Sublist.refl _) hsub
        · split
          · exact inv_of_parts _ _ h rfl le_rfl (List.Sublist.refl _) hsub
          · exact inv_remove_node_item _ _
              (inv_of_parts _ _ h rfl le_rfl (List.Sublist.refl _) hsub)

@[simp] theorem setPos_node_items (sc : CanvasScene) (i : Nat) (p : Int × Int) :
    (setPos sc i p).node_items = sc.node_items := rfl

@[simp] theorem setPos_item_for_node (sc : CanvasScene) (i : Nat) (p : Int × Int) :
    (setPos sc i p).item_for_node = sc.item_for_node := rfl

@[simp] theorem setPos_next_id (sc : CanvasScene) (i : Nat) (p : Int × Int) :
    (setPos sc i p).next_id = sc.next_id := rfl

@[simp] theorem setPos_link_items (sc : CanvasScene) (i : Nat) (p : Int × Int) :
    (setPos sc i p).link_items = sc.link_items := rfl

@[simp] theorem setPos_item_for_link (sc : CanvasScene) (i : Nat) (p : Int × Int) :
    (setPos sc i p).item_for_link = sc.item_for_link := rfl

@[simp] theorem setPos_connections (sc : CanvasScene) (i : Nat) (p : Int × Int) :
    (setPos sc i p).connections = sc.connections := rfl

@[simp] theorem setPos_scene_items (sc : CanvasScene) (i : Nat) (p : Int × Int) :
    (setPos sc i p).scene_items = sc.scene_items := rfl

@[simp] theorem setPos_editable (sc : CanvasScene) (i : Nat) (p : Int × Int) :
    (setPos sc i p).editable = sc.editable := rfl

@[simp] theorem setPos_scheme (sc : CanvasScene) (i : Nat) (p : Int × Int) :
    (setPos sc i p).scheme = sc.scheme := rfl

@[simp] theorem setPos_items_fst (sc : CanvasScene) (i : Nat) (p : Int × Int) :
    (setPos sc i p).items.map Prod.fst = sc.items.map Prod.fst :=
  map_fst_map_upd _ _ _

theorem inv_add_node_item (sc : CanvasScene) (i : Nat) (h : Inv sc) (hi : i < sc.next_id) :
    Inv (add_node_item sc i).2 := by
  unfold add_node_item
  dsimp only
  split
  · exact h
  · rename_i hmem
    have hdisj : ∀ sc2 : CanvasScene,
        sc2.items.map Prod.fst = sc.items.map Prod.fst →
        sc2.node_items = sc.node_items →
        sc2.item_for_node = sc.item_for_node →
        sc2.next_id = sc.next_id →
        Inv { sc2 with
          activated_map := setPyMapping sc2.activated_map i,
          hovered_map := setPyMapping sc2.hovered_map i,
          position_change_map := setPyMapping sc2.position_change_map i,
          scene_items := sc2.scene_items ++ [i],
          node_items := sc2.node_items ++ [i] } := by
      intro sc2 hit hni hmap hnx
      refine ⟨?_, ?_, ?_, ?_, ?_⟩
      · intro j hj
        dsimp only at hj
        rw [hit] at hj
        rw [hnx]
        exact h.heapLt j hj
      · intro j hj
        dsimp only at hj
        rw [hni] at hj
        rw [hnx]
        rcases List.mem_append.1 hj with hj | hj
        · exact h.nodeLt j hj
        · rw [List.mem_singleton.1 hj]
          exact hi
      · dsimp only
        rw [hni]
        exact List.Nodup.append h.nodeNodup (List.nodup_singleton i)
          (fun x hx hxi => hmem (List.mem_singleton.1 hxi ▸ hx))
      · intro j hj
        dsimp only at hj
        rw [hmap] at hj
        rw [hnx]
        exact h.mapLt j hj
      · dsimp only
        rw [hmap]
        exact h.mapValsNodup
    split
    · exact hdisj _ (setPos_items_fst _ _ _) rfl rfl rfl
    · exact hdisj _ rfl rfl rfl rfl

/-- The invariant after allocating one fresh item identity: the item
table gains the old allocator value as a key, the allocator advances,
the node registries are unchanged. -/
theorem inv_after_fresh (sc sc1 : CanvasScene) (h : Inv sc)
    (hit : sc1.items.map Prod.fst = sc.items.map Prod.fst ++ [sc.next_id])
    (hnx : sc1.next_id = sc.next_id + 1)
    (hni : sc1.node_items = sc.node_items)
    (hmap : sc1.item_for_node = sc.item_for_node) : Inv sc1 := by
  refine ⟨?_, ?_, ?_, ?_, ?_⟩
  · intro i hi
    rw [hit] at hi
    rw [hnx]
    rcases List.mem_append.1 hi with hi | hi
    · exact Nat.lt_succ_of_lt (h.heapLt i hi)
    · rw [List.mem_singleton.1 hi]
      exact Nat.lt_succ_self _
  · intro i hi
    rw [hni] at hi
    rw [hnx]
    exact Nat.lt_succ_of_lt (h.nodeLt i hi)
  · rw [hni]
    exact h.nodeNodup
  · intro i hi
    rw [hmap] at hi
    rw [hnx]
    exact Nat.lt_succ_of_lt (h.mapLt i hi)
  · rw [hmap]
    exact h.mapValsNodup

/-- The invariant after allocating one fresh item identity and binding
a node to it in the forward map. -/
theorem inv_after_fresh_insert (n : Node) (sc sc4 : CanvasScene) (h : Inv sc)
    (hit : sc4.items.map Prod.fst = sc.items.map Prod.fst ++ [sc.next_id])
    (hnx : sc4.next_id = sc.next_id + 1)
    (hni : sc4.node_items = sc.node_items)
    (hmap : sc4.item_for_node = sc.item_for_node ++ [(n, sc.next_id)]) : Inv sc4 := by
  refine ⟨?_, ?_, ?_, ?_, ?_⟩
  · intro i hi
    rw [hit] at hi
    rw [hnx]
    rcases List.mem_append.1 hi with hi | hi
    · exact Nat.lt_succ_of_lt (h.heapLt i hi)
    · rw [List.mem_singleton.1 hi]
      exact Nat.lt_succ_self _
  · intro i hi
    rw [hni] at hi
    rw [hnx]
    exact Nat.lt_succ_of_lt (h.nodeLt i hi)
  · rw [hni]
    exact h.nodeNodup
  · intro i hi
    rw [hmap, List.map_append] at hi
    rw [hnx]
    rcases List.mem_append.1 hi with hi2 | hi2
    · exact Nat.lt_succ_of_lt (h.mapLt i hi2)
    · simp only [List.map_cons, List.map_nil, List.mem_singleton] at hi2
      rw [hi2]
      exact Nat.lt_succ_self _
  · rw [hmap, List.map_append]
    refine List.Nodup.append h.mapValsNodup (List.nodup_singleton _) ?_
    intro x hx hx2
    simp only [List.map_cons, List.map_nil, List.mem_singleton] at hx2
    exact absurd (hx2 ▸ h.mapLt x hx) (lt_irrefl _)

theorem inv_add_node (sc : CanvasScene) (n : Node) (h : Inv sc) :
    Inv (add_node sc n).2 := by
  unfold add_node
  split
  · exact h
  · rename_i hl
    split
    · rename_i e sc1 hnn
      have F := new_node_item_fields sc n.description none
      rw [hnn] at F
      exact inv_after_fresh sc sc1 h F.2.1 F.1 F.2.2.1 F.2.2.2.1
    · rename_i itemId sc1 hnn
      have F := new_node_item_fields sc n.description none
      rw [hnn] at F
      have hid : itemId = sc.next_id := by
        have hok := @new_node_item_ok sc n.description none itemId
        rw [hnn] at hok
        exact hok rfl
      have hmid : Inv (add_node_mid sc1 n itemId) := by
        refine inv_after_fresh_insert n sc _ h ?_ ?_ ?_ ?_
        · rw [add_node_mid_items_fst, F.2.1]
        · rw [add_node_mid_next_id, F.1]
        · rw [add_node_mid_node_items, F.2.2.1]
        · rw [add_node_mid_item_for_node, F.2.2.2.1,
            ainsert_of_lookup_none itemId hl, hid]
      refine inv_add_node_item _ itemId hmid ?_
      rw [add_node_mid_next_id, F.1, hid]
      exact Nat.lt_succ_self _

theorem inv_add_link (sc : CanvasScene) (l : Link) (h : Inv sc) :
    Inv (add_link sc l).2 := by
  unfold add_link new_link_item add_link_item
  dsimp only
  split
  · exact h
  · split
    · exact h
    · split
      · exact h
      · split
        · exact inv_of_parts _ _ h rfl (Nat.le_succ _) (List.Sublist.refl _) (List.Sublist.refl _)
        · exact inv_of_parts _ _ h rfl (Nat.le_succ _) (List.Sublist.refl _) (List.Sublist.refl _)

theorem inv_remove_link (sc : CanvasScene) (l : Link) (h : Inv sc) :
    Inv (remove_link sc l).2 := by
  unfold remove_link remove_link_item
  dsimp only
  split
  · exact h
  · split
    · exact inv_of_parts _ _ h rfl le_rfl (List.Sublist.refl _) (List.Sublist.refl _)
    · split
      · exact inv_of_parts _ _ h rfl le_rfl (List.Sublist.refl _) (List.Sublist.refl _)
      · exact inv_of_parts _ _ h rfl le_rfl (List.Sublist.refl _) (List.Sublist.refl _)

theorem inv_commit_node (sc : CanvasScene) (n : Node) (h : Inv sc) :
    Inv (commit_scheme_node sc n).2 := by
  unfold commit_scheme_node
  split
  · exact h
  · split
    · exact h
    · rename_i itemId hl
      split
      · split
        · rename_i u sc2 hr
          have hr2 := inv_remove_node_item sc itemId h
          rw [hr] at hr2
          exact hr2
        · rename_i e2 sc2 hr
          have hr2 := inv_remove_node_item sc itemId h
          rw [hr] at hr2
          exact hr2
      · exact inv_of_parts _ _ h rfl le_rfl (List.Sublist.refl _) (List.Sublist.refl _)

theorem inv_commit_link (sc : CanvasScene) (l : Link) (h : Inv sc) :
    Inv (commit_scheme_link sc l).2 := by
  unfold commit_scheme_link
  split
  · exact h
  · split
    · exact h
    · split
      · exact h
      · exact inv_of_parts _ _ h rfl le_rfl (List.Sublist.refl _) (List.Sublist.refl _)

theorem inv_applyOp (sc : CanvasScene) (op : Op) (h : Inv sc) : Inv (applyOp sc op) := by
  cases op with
  | addNode n => exact inv_add_node sc n h
  | removeNode n => exact inv_remove_node sc n h
  | commitNode n => exact inv_commit_node sc n h
  | addLink l => exact inv_add_link sc l h
  | removeLink l => exact inv_remove_link sc l h
  | commitLink l => exact inv_commit_link sc l h

theorem inv_initScene (s : Scheme) (reg : Option Registry) : Inv (initScene s reg) := by
  refine ⟨?_, ?_, ?_, ?_, ?_⟩ <;> simp [initScene]

theorem inv_run_aux (ops : List Op) (sc : CanvasScene) (h : Inv sc) : Inv (run sc ops) := by
  induction ops generalizing sc with
  | nil => exact h
  | cons op ops ih => exact ih _ (inv_applyOp sc op h)

/-- Every scene state reachable from a fresh scene satisfies the
structural invariant. -/
theorem inv_run (s : Scheme) (reg : Option Registry) (ops : List Op) :
    Inv (run (initScene s reg) ops) :=
  inv_run_aux ops _ (inv_initScene s reg)

end Invariant

section AddNodeSpec

theorem add_node_item_fst (sc : CanvasScene) (i : Nat) (h : ¬ i ∈ sc.node_items) :
    (add_node_item sc i).1 = .ok i := by
  unfold add_node_item
  rw [if_neg h]

theorem add_node_item_node_items (sc : CanvasScene) (i : Nat) (h : ¬ i ∈ sc.node_items) :
    (add_node_item sc i).2.node_items = sc.node_items ++ [i] := by
  unfold add_node_item
  rw [if_neg h]
  dsimp only
  split <;> rfl

theorem add_node_item_item_for_node (sc : CanvasScene) (i : Nat) (h : ¬ i ∈ sc.node_items) :
    (add_node_item sc i).2.item_for_node = sc.item_for_node := by
  unfold add_node_item
  rw [if_neg h]
  dsimp only
  split <;> rfl

theorem add_node_item_next_id (sc : CanvasScene) (i : Nat) (h : ¬ i ∈ sc.node_items) :
    (add_node_item sc i).2.next_id = sc.next_id := by
  unfold add_node_item
  rw [if_neg h]
  dsimp only
  split <;> rfl

theorem add_node_item_connections (sc : CanvasScene) (i : Nat) (h : ¬ i ∈ sc.node_items) :
    (add_node_item sc i).2.connections = sc.connections := by
  unfold add_node_item
  rw [if_neg h]
  dsimp only
  split <;> rfl

theorem add_node_item_scheme (sc : CanvasScene) (i : Nat) (h : ¬ i ∈ sc.node_items) :
    (add_node_item sc i).2.scheme = sc.scheme := by
  unfold add_node_item
  rw [if_neg h]
  dsimp only
  split <;> rfl

/-- The placement logic of add_node_item: a null position is replaced
by the position to the right of the last node item, or the default
origin when the scene has no node items; a non-null position is
kept. -/
theorem add_node_item_pos_self (sc : CanvasScene) (i : Nat) (h : ¬ i ∈ sc.node_items)
    (hkey : alookup sc.items i ≠ none) :
    itemPos (add_node_item sc i).2 i =
      if itemPos sc i = ((0 : Int), (0 : Int)) then
        match sc.node_items.getLast? with
        | some lastId => ((itemPos sc lastId).1 + 150, (itemPos sc lastId).2)
        | none => ((150 : Int), (150 : Int))
      else itemPos sc i := by
  unfold add_node_item
  rw [if_neg h]
  dsimp only
  split
  · exact (itemPos_eq_of_items_eq rfl i).trans (itemPos_setPos_self _ hkey)
  · exact itemPos_eq_of_items_eq rfl i

theorem mem_of_getLast?_eq_some {l : List Nat} {a : Nat} (h : l.getLast? = some a) :
    a ∈ l := by
  rcases @List.mem_getLast?_eq_getLast Nat l a h with ⟨hne, heq⟩
  rw [heq]
  exact List.getLast_mem hne

/-- The position at which a successful fresh add_node places the new
item, as computed by add_node together with add_node_item: the stored
node position when it is set and is not the null point (0, 0);
otherwise to the right of the last node item by (150, 0); otherwise,
with no node items present, the default origin (150, 150). -/
def finalPos (sc : CanvasScene) (n : Node) : Int × Int :=
  let p0 : Int × Int :=
    match n.position with
    | some p => p
    | none => (0, 0)
  if p0 = (0, 0) then
    match sc.node_items.getLast? with
    | some lastId => ((itemPos sc lastId).1 + 150, (itemPos sc lastId).2)
    | none => (150, 150)
  else p0

/-- The full effect of a successful add_node on a node that is not
yet mapped, on a scene satisfying the structural invariant: the
returned item is the freshly allocated one, the forward map and the
node-item list gain exactly that item, the four listeners for the
node are connected, the allocator advances and the item ends at the
position finalPos describes. -/
theorem add_node_ok_spec (sc : CanvasScene) (n : Node) (i : Nat) (hInv : Inv sc)
    (h0 : alookup sc.item_for_node n = none)
    (h1 : (add_node sc n).1 = .ok i) :
    i = sc.next_id ∧
    (add_node sc n).2.item_for_node = sc.item_for_node ++ [(n, sc.next_id)] ∧
    (add_node sc n).2.node_items = sc.node_items ++ [sc.next_id] ∧
    (add_node sc n).2.next_id = sc.next_id + 1 ∧
    (add_node sc n).2.connections = sc.connections ++ nodeConns n sc.next_id ∧
    itemPos (add_node sc n).2 sc.next_id = finalPos sc n := by
  have hfresh : ∀ p ∈ sc.items, p.1 ≠ sc.next_id := by
    intro p hp
    exact Nat.ne_of_lt (hInv.heapLt p.1 (List.mem_map_of_mem Prod.fst hp))
  unfold add_node at h1 ⊢
  rw [h0] at h1 ⊢
  dsimp only at h1 ⊢
  rcases hnn : new_node_item sc n.description none with ⟨r, sc1⟩
  obtain ⟨Fnext, Fitems, Fnode, Fmap, Flink, Fflink, Fconn, Fscene, Fact, Fhov, Fpos,
      Fedit, Fscheme, Flit⟩ := by
    have F := new_node_item_fields sc n.description none
    rw [hnn] at F
    exact F
  cases r with
  | error e =>
    rw [hnn] at h1
    dsimp only at h1
    exact absurd h1 (by simp)
  | ok itemId =>
    rw [hnn] at h1
    dsimp only at h1 ⊢
    have hid : itemId = sc.next_id := by
      refine @new_node_item_ok sc n.description none itemId ?_
      rw [hnn]
    have hkey1 : alookup sc1.items itemId ≠ none := by
      refine alookup_ne_none_of_mem_keys ?_
      rw [Fitems, hid]
      exact List.mem_append_right _ (List.mem_singleton.2 rfl)
    have hnotmem : ¬ itemId ∈ (add_node_mid sc1 n itemId).node_items := by
      rw [add_node_mid_node_items, Fnode, hid]
      intro hmem
      exact absurd (hInv.nodeLt _ hmem) (lt_irrefl _)
    have hkeymid : alookup (add_node_mid sc1 n itemId).items itemId ≠ none := by
      refine alookup_ne_none_of_mem_keys ?_
      rw [add_node_mid_items_fst, Fitems, hid]
      exact List.mem_append_right _ (List.mem_singleton.2 rfl)
    have hi : i = itemId := by
      rw [add_node_item_fst _ _ hnotmem] at h1
      simpa using h1.symm
    have hposmid : itemPos (add_node_mid sc1 n itemId) itemId =
        match n.position with
        | some p => p
        | none => ((0 : Int), (0 : Int)) := by
      rw [add_node_mid_pos_self sc1 n itemId hkey1]
      cases hp : n.position with
      | some p => rfl
      | none =>
        have hz := new_node_item_pos sc n.description none hfresh
        rw [hnn] at hz
        dsimp only at hz
        rw [hid]
        exact hz
    have hposold : ∀ j ∈ sc.node_items,
        itemPos (add_node_mid sc1 n itemId) j = itemPos sc j := by
      intro j hj
      have hne : itemId ≠ j := by
        rw [hid]
        exact Nat.ne_of_gt (hInv.nodeLt j hj)
      rw [add_node_mid_pos_ne sc1 n hne]
      have hne2 : sc.next_id ≠ j := hid ▸ hne
      have hz := new_node_item_pos_ne sc n.description none hne2
      rw [hnn] at hz
      exact hz
    refine ⟨hi.trans hid, ?_, ?_, ?_, ?_, ?_⟩
    · rw [add_node_item_item_for_node _ _ hnotmem, add_node_mid_item_for_node, Fmap,
        ainsert_of_lookup_none itemId h0, hid]
    · rw [add_node_item_node_items _ _ hnotmem, add_node_mid_node_items, Fnode, hid]
    · rw [add_node_item_next_id _ _ hnotmem, add_node_mid_next_id, Fnext]
    · rw [add_node_item_connections _ _ hnotmem, add_node_mid_connections, Fconn, hid]
    · rw [← hid, add_node_item_pos_self _ _ hnotmem hkeymid, hposmid,
        add_node_mid_node_items, Fnode]
      unfold finalPos
      dsimp only
      cases hp : n.position with
      | some p =>
        dsimp only
        by_cases hz : p = ((0 : Int), (0 : Int))
        · rw [if_pos hz, if_pos hz]
          cases hlast : sc.node_items.getLast? with
          | none => rfl
          | some lastId =>
            dsimp only
            rw [hposold lastId (mem_of_getLast?_eq_some hlast)]
        · rw [if_neg hz, if_neg hz]
      | none =>
        dsimp only
        rw [if_pos rfl, if_pos rfl]
        cases hlast : sc.node_items.getLast? with
        | none => rfl
        | some lastId =>
          dsimp only
          rw [hposold lastId (mem_of_getLast?_eq_some hlast)]

end AddNodeSpec

section CommitSpec

/-- remove_node_item on an item that is present succeeds and performs
exactly: clear the activation and hover mappings, remove the item from
the graphics scene, drop it from the node-item list.  The
position-change mapping is visibly untouched. -/
theorem remove_node_item_ok_spec (sc : CanvasScene) (i : Nat) (hm : i ∈ sc.node_items) :
    remove_node_item sc i =
      (.ok (), { sc with
        activated_map := removePyMappings sc.activated_map i,
        hovered_map := removePyMappings sc.hovered_map i,
        scene_items := sc.scene_items.filter (fun j => j != i),
        node_items := sc.node_items.erase i }) := by
  unfold remove_node_item listRemove
  dsimp only
  rw [if_pos hm]

/-- The full effect of a failed commit_scheme_node: the scene is
editable, the node has an item, the domain model rejects the node with
error e; then the commit re-raises e, removes the item from the
node-item list and the graphics scene, clears its activation and hover
mappings, and leaves the forward map, the listener connections and the
position-change mapper table untouched. -/
theorem commit_node_fail_spec (sc : CanvasScene) (n : Node) (itemId : Nat) (e : Err)
    (hed : sc.editable = true)
    (hl : alookup sc.item_for_node n = some itemId)
    (hm : itemId ∈ sc.node_items)
    (hr : sc.scheme.rejectNode n = some e) :
    (commit_scheme_node sc n).1 = .error e ∧
    (commit_scheme_node sc n).2.item_for_node = sc.item_for_node ∧
    (commit_scheme_node sc n).2.node_items = sc.node_items.erase itemId ∧
    (commit_scheme_node sc n).2.scene_items = sc.scene_items.filter (fun j => j != itemId) ∧
    (commit_scheme_node sc n).2.connections = sc.connections ∧
    (commit_scheme_node sc n).2.activated_map = removePyMappings sc.activated_map itemId ∧
    (commit_scheme_node sc n).2.hovered_map = removePyMappings sc.hovered_map itemId ∧
    (commit_scheme_node sc n).2.position_change_map = sc.position_change_map := by
  unfold commit_scheme_node
  split
  · rename_i hc
    rw [hed] at hc
    exact absurd hc (by simp)
  · split
    · rename_i hnone
      rw [hl] at hnone
      exact absurd hnone (by simp)
    · rename_i itemId2 heq
      rw [hl] at heq
      injection heq with heq2
      subst heq2
      split
      · rename_i e2 heq3
        unfold Scheme.add_node at heq3
        rw [hr] at heq3
        dsimp only at heq3
        injection heq3 with heq4
        subst heq4
        rw [remove_node_item_ok_spec sc itemId hm]
        exact ⟨rfl, rfl, rfl, rfl, rfl, rfl, rfl, rfl⟩
      · rename_i s heq3
        unfold Scheme.add_node at heq3
        rw [hr] at heq3
        exact absurd heq3 (by simp)

end CommitSpec

section ReverseLookup

/-- With duplicate-free map values, the pair found for a value is the
unique one bound to it. -/
theorem rev_lookup_unique {l : List (Node × Nat)} {n : Node} {i : Nat}
    (hnd : (l.map Prod.snd).Nodup) (hmem : (n, i) ∈ l) :
    ∀ p ∈ l, p.2 = i → p = (n, i) := by
  induction l with
  | nil => simp
  | cons q qs ih =>
    simp only [List.map_cons, List.nodup_cons] at hnd
    obtain ⟨hq, hnd2⟩ := hnd
    intro p hp hpi
    rcases List.mem_cons.1 hmem with hni | hni
    · rcases List.mem_cons.1 hp with hpq | hpq
      · rw [hpq, ← hni]
      · exfalso
        apply hq
        have hq2 : q.2 = i := by
          rw [← hni]
        rw [hq2, ← hpi]
        exact List.mem_map_of_mem Prod.snd hpq
    · rcases List.mem_cons.1 hp with hpq | hpq
      · exfalso
        apply hq
        have hi2 : i ∈ qs.map Prod.snd := by
          have : (n, i).2 = i := rfl
          rw [← this]
          exact List.mem_map_of_mem Prod.snd hni
        rw [hpq] at hpi
        rw [hpi]
        exact hi2
      · exact ih hnd2 hni p hpq hpi

/-- A forward lookup followed by the reversed-dictionary lookup (as
node_for_item builds it) returns the original key, for duplicate-free
map values. -/
theorem rev_lookup_round_trip {l : List (Node × Nat)} {n : Node} {i : Nat}
    (hnd : (l.map Prod.snd).Nodup) (h : alookup l n = some i) :
    (l.reverse.find? (fun p => p.2 == i)).map (fun p => p.1) = some n := by
  have hmem : (n, i) ∈ l := alookup_mem h
  have huniq := rev_lookup_unique hnd hmem
  cases hf : l.reverse.find? (fun p => p.2 == i) with
  | none =>
    rw [List.find?_eq_none] at hf
    exact absurd (by simp : (((n, i).2 == i) = true)) (hf _ (List.mem_reverse.2 hmem))
  | some q =>
    have hq2 : (q.2 == i) = true := @List.find?_some _ (fun r => r.2 == i) q l.reverse hf
    have hqmem : q ∈ l := List.mem_reverse.1 (List.mem_of_find?_eq_some hf)
    have hqni := huniq q hqmem (by simpa using hq2)
    rw [hqni]
    rfl

end ReverseLookup

section Demo

/-- A demo widget description without a category. -/
def demoDesc : WidgetDesc := { wid := 0, category := none }

/-- A demo node with no stored position. -/
def nodeA : Node := { nid := 1, description := demoDesc, position := none }

/-- A second demo node with no stored position. -/
def nodeB : Node := { nid := 2, description := demoDesc, position := none }

/-- A demo node whose stored position is exactly the origin. -/
def nodeZero : Node := { nid := 3, description := demoDesc, position := some (0, 0) }

/-- A scheme accepting every commit. -/
def demoScheme : Scheme :=
  { nodes := [], links := [], rejectNode := fun _ => none, rejectLink := fun _ => none }

/-- A scheme rejecting every commit with a generic error. -/
def rejScheme : Scheme :=
  { nodes := [], links := [], rejectNode := fun _ => some .schemeError,
    rejectLink := fun _ => some .schemeError }

/-- A demo link between the two demo nodes. -/
def demoLink : Link :=
  { lid := 10, sourceNode := nodeA, sourceChannel := "out", sinkNode := nodeB,
    sinkChannel := "in", enabled := true }

/-- A scene with both demo nodes and the demo link visualised, bound
to the rejecting scheme: the state right before a commit that will
fail. -/
def scRejLink : CanvasScene :=
  run (initScene rejScheme none) [.addNode nodeA, .addNode nodeB, .addLink demoLink]

/-- A scene with one node visualised, bound to the rejecting
scheme. -/
def scRejNode : CanvasScene :=
  run (initScene rejScheme none) [.addNode nodeA]

/-- A scene with one node visualised, bound to the accepting
scheme. -/
def scA : CanvasScene :=
  run (initScene demoScheme none) [.addNode nodeA]

/-- A scene with one node added and then removed again. -/
def scRemoved : CanvasScene :=
  run (initScene demoScheme none) [.addNode nodeA, .removeNode nodeA]

/-- A non-editable scene. -/
def scNonEdit : CanvasScene := { initScene demoScheme none with editable := false }

/-- A registry that does not contain the category named by
descMiss. -/
def demoReg : Registry := [("Data", "cat_data")]

/-- A widget description naming a category absent from demoReg. -/
def descMiss : WidgetDesc := { wid := 5, category := some "Visualize" }

/-- A node carrying descMiss. -/
def nodeMiss : Node := { nid := 6, description := descMiss, position := none }

end Demo

section Claims

/-- A helper for the link half of the commit protocol: on an editable
scene, for a visualised link that the domain model rejects, the commit
re-raises the rejection error and performs no mutation at all: in
particular the link item is not removed. -/
theorem commit_link_fail_spec (sc : CanvasScene) (l : Link) (linkId : Nat) (e : Err)
    (hed : sc.editable = true)
    (hl : alookup sc.item_for_link l = some linkId)
    (hr : sc.scheme.rejectLink l = some e) :
    commit_scheme_link sc l = (.error e, sc) := by
  unfold commit_scheme_link
  split
  · rename_i hc
    rw [hed] at hc
    exact absurd hc (by simp)
  · split
    · rename_i hnone
      rw [hl] at hnone
      exact absurd hnone (by simp)
    · split
      · rename_i e2 heq
        unfold Scheme.add_link at heq
        rw [hr] at heq
        dsimp only at heq
        injection heq with h2
        subst h2
        rfl
      · rename_i s2 heq
        unfold Scheme.add_link at heq
        rw [hr] at heq
        exact absurd heq (by simp)

/-- C1 counterexample: on an editable scene holding a visualised link
whose commit the domain model rejects, commit_scheme_link re-raises
the error but the link item is NOT removed: it is still in the link
item list and in the graphics scene after the failed commit, contrary
to the claim that links are rolled back like nodes. -/
theorem C1_counterexample :
    scRejLink.editable = true ∧
    item_for_link scRejLink demoLink = some 2 ∧
    (commit_scheme_link scRejLink demoLink).1 = .error .schemeError ∧
    2 ∈ (commit_scheme_link scRejLink demoLink).2.link_items ∧
    2 ∈ (commit_scheme_link scRejLink demoLink).2.scene_items := by
  refine ⟨by decide, by decide, by decide, by decide, by decide⟩

/-- C1 (amended): on an editable reachable scene, a failed
commit_scheme_node removes the speculative node item from the
node-item list and the graphics scene and re-raises the domain error;
a failed commit_scheme_link merely re-raises the domain error and
performs no rollback: the scene state, the link item included, is
exactly as before the call. -/
theorem C1_commit_rollback_nodes_only
    (s : Scheme) (reg : Option Registry) (ops : List Op)
    (n : Node) (itemId : Nat) (l : Link) (linkId : Nat) (e e2 : Err)
    (hed : (run (initScene s reg) ops).editable = true)
    (hn : item_for_node (run (initScene s reg) ops) n = some itemId)
    (hm : itemId ∈ (run (initScene s reg) ops).node_items)
    (hrn : (run (initScene s reg) ops).scheme.rejectNode n = some e)
    (hl : item_for_link (run (initScene s reg) ops) l = some linkId)
    (hrl : (run (initScene s reg) ops).scheme.rejectLink l = some e2) :
    (commit_scheme_node (run (initScene s reg) ops) n).1 = .error e ∧
    itemId ∉ (commit_scheme_node (run (initScene s reg) ops) n).2.node_items ∧
    itemId ∉ (commit_scheme_node (run (initScene s reg) ops) n).2.scene_items ∧
    (commit_scheme_link (run (initScene s reg) ops) l).1 = .error e2 ∧
    (commit_scheme_link (run (initScene s reg) ops) l).2 = run (initScene s reg) ops := by
  have hInv := inv_run s reg ops
  obtain ⟨h1, -, h3, h4, -, -, -, -⟩ := commit_node_fail_spec _ n itemId e hed hn hm hrn
  have hlink := commit_link_fail_spec _ l linkId e2 hed hl hrl
  refine ⟨h1, ?_, ?_, ?_, ?_⟩
  · rw [h3]
    exact hInv.nodeNodup.not_mem_erase
  · rw [h4]
    intro hc
    rcases List.mem_filter.1 hc with ⟨-, hb⟩
    simp at hb
  · rw [hlink]
  · rw [hlink]

/-- C1 witness: the amended statement evaluated on the demo scene. -/
theorem C1_commit_rollback_nodes_only_witness :
    (commit_scheme_node scRejLink nodeA).1 = .error .schemeError ∧
    0 ∉ (commit_scheme_node scRejLink nodeA).2.node_items ∧
    0 ∉ (commit_scheme_node scRejLink nodeA).2.scene_items ∧
    (commit_scheme_link scRejLink demoLink).1 = .error .schemeError ∧
    (commit_scheme_link scRejLink demoLink).2 = scRejLink :=
  C1_commit_rollback_nodes_only rejScheme none
    [.addNode nodeA, .addNode nodeB, .addLink demoLink] nodeA 0 demoLink 2
    .schemeError .schemeError
    (by decide) (by decide) (by decide) (by decide) (by decide) (by decide)

/-- C2: the code evaluated at the failing input.  After add_node and
remove_node on the same node, the four change-notification listeners
are gone and the activation and hover mapper tables are clear, but the
position-change mapper STILL holds a mapping for the removed item:
remove_node_item never calls removePyMappings on
position_change_mapper, so one of the three tables keeps a dangling
entry, contrary to the claim. -/
theorem C2_remove_node_leaves_position_mapping :
    0 ∉ scRemoved.activated_map ∧
    0 ∉ scRemoved.hovered_map ∧
    scRemoved.connections = [] ∧
    item_for_node scRemoved nodeA = none ∧
    scRemoved.node_items = [] ∧
    0 ∈ scRemoved.position_change_map := by
  refine ⟨by decide, by decide, by decide, by decide, by decide, by decide⟩

/-- C3: the code evaluated at the failing input.  With a registry set
and a widget description whose category name is truthy but absent from
the registry, new_node_item raises KeyError from the unguarded first
lookup (the guarded retry below it is unreachable in this case), and
add_node propagates it, contrary to the claim that the lookup failure
is silently tolerated. -/
theorem C3_category_lookup_failure_raises :
    strOptTruthy descMiss.category = true ∧
    alookup demoReg "Visualize" = none ∧
    (new_node_item (initScene demoScheme (some demoReg)) descMiss none).1 = .error .keyError ∧
    (add_node (initScene demoScheme (some demoReg)) nodeMiss).1 = .error .keyError := by
  refine ⟨by decide, by decide, by decide, by decide⟩

/-- C4 counterexample: add_link on a scene where neither endpoint of
the link was added fails with a plain KeyError from the forward-map
lookup, not with a MissingEndpointError: no such error type exists in
the code. -/
theorem C4_counterexample :
    (add_link (initScene demoScheme none) demoLink).1 = .error .keyError ∧
    (add_link (initScene demoScheme none) demoLink).1 ≠ .error .missingEndpointError := by
  exact ⟨by decide, by decide⟩

/-- C4 (amended): for every link not already visualised with a source
or sink node that has no item, add_link raises KeyError (the bare dict
lookup failure) and leaves the whole scene state, the link registry
included, exactly as it was. -/
theorem C4_add_link_missing_endpoint_keyerror (sc : CanvasScene) (l : Link)
    (h0 : alookup sc.item_for_link l = none)
    (h1 : alookup sc.item_for_node l.sourceNode = none ∨
          alookup sc.item_for_node l.sinkNode = none) :
    add_link sc l = (.error .keyError, sc) := by
  unfold add_link
  rw [h0]
  dsimp only
  rcases h1 with h1 | h1
  · rw [h1]
  · cases hs : alookup sc.item_for_node l.sourceNode with
    | none => rfl
    | some src =>
      dsimp only
      rw [h1]

/-- C4 witness: the amended statement evaluated on a fresh scene. -/
theorem C4_add_link_missing_endpoint_keyerror_witness :
    alookup (initScene demoScheme none).item_for_link demoLink = none ∧
    alookup (initScene demoScheme none).item_for_node demoLink.sourceNode = none ∧
    add_link (initScene demoScheme none) demoLink =
      (.error .keyError, initScene demoScheme none) :=
  ⟨by decide, by decide,
    C4_add_link_missing_endpoint_keyerror (initScene demoScheme none) demoLink (by decide)
      (Or.inl (by decide))⟩

/-- C5 counterexample: commit on a non-editable scene raises the bare
Exception with the message from the source, not an
EditingDisabledError: no such error type exists in the code (and the
node and link variants even differ in the trailing period of the
message). -/
theorem C5_counterexample :
    scNonEdit.editable = false ∧
    (commit_scheme_node scNonEdit nodeA).1 = .error (.exception "Scheme not editable.") ∧
    (commit_scheme_node scNonEdit nodeA).1 ≠ .error .editingDisabledError ∧
    (commit_scheme_link scNonEdit demoLink).1 = .error (.exception "Scheme not editable") ∧
    (commit_scheme_link scNonEdit demoLink).1 ≠ .error .editingDisabledError := by
  refine ⟨by decide, by decide, by decide, by decide, by decide⟩

/-- C5 (amended): whenever the scene is non-editable, both commit
operations are refused before any domain-model or scene mutation (the
returned state is exactly the input state), but with a plain untyped
Exception rather than a typed EditingDisabledError. -/
theorem C5_commit_refused_before_mutation (sc : CanvasScene) (n : Node) (l : Link)
    (h : sc.editable = false) :
    commit_scheme_node sc n = (.error (.exception "Scheme not editable."), sc) ∧
    commit_scheme_link sc l = (.error (.exception "Scheme not editable"), sc) := by
  constructor
  · unfold commit_scheme_node
    rw [h]
    rfl
  · unfold commit_scheme_link
    rw [h]
    rfl

/-- C5 witness: the amended statement evaluated on the demo
non-editable scene. -/
theorem C5_commit_refused_before_mutation_witness :
    scNonEdit.editable = false ∧
    commit_scheme_node scNonEdit nodeA = (.error (.exception "Scheme not editable."), scNonEdit) ∧
    commit_scheme_link scNonEdit demoLink =
      (.error (.exception "Scheme not editable"), scNonEdit) := by
  have h := C5_commit_refused_before_mutation scNonEdit nodeA demoLink (by decide)
  exact ⟨by decide, h.1, h.2⟩

/-- C6 counterexample: on a scene with one speculative node item, the
node-item count before the failing commit_scheme_node call is 1 and
after it is 0: the count is NOT unchanged from immediately before the
call, because the rollback removes the speculative item. -/
theorem C6_counterexample :
    scRejNode.node_items.length = 1 ∧
    (commit_scheme_node scRejNode nodeA).1 = .error .schemeError ∧
    (commit_scheme_node scRejNode nodeA).2.node_items.length = 0 := by
  refine ⟨by decide, by decide, by decide⟩

/-- C6 (amended): on an editable reachable scene, a failed
commit_scheme_node leaves the node-item count at exactly one less than
immediately before the call: the speculative item is removed, so the
count returns to what it was before the speculative visual item was
added. -/
theorem C6_failed_commit_count_drops_by_one
    (s : Scheme) (reg : Option Registry) (ops : List Op) (n : Node) (itemId : Nat) (e : Err)
    (hed : (run (initScene s reg) ops).editable = true)
    (hn : item_for_node (run (initScene s reg) ops) n = some itemId)
    (hm : itemId ∈ (run (initScene s reg) ops).node_items)
    (hr : (run (initScene s reg) ops).scheme.rejectNode n = some e) :
    (commit_scheme_node (run (initScene s reg) ops) n).1 = .error e ∧
    (commit_scheme_node (run (initScene s reg) ops) n).2.node_items.length + 1 =
      (run (initScene s reg) ops).node_items.length := by
  obtain ⟨h1, -, h3, -, -, -, -, -⟩ := commit_node_fail_spec _ n itemId e hed hn hm hr
  refine ⟨h1, ?_⟩
  rw [h3]
  exact List.length_erase_add_one hm

/-- C6 witness: the amended statement evaluated on the demo scene. -/
theorem C6_failed_commit_count_drops_by_one_witness :
    (commit_scheme_node scRejNode nodeA).1 = .error .schemeError ∧
    (commit_scheme_node scRejNode nodeA).2.node_items.length + 1 =
      scRejNode.node_items.length :=
  C6_failed_commit_count_drops_by_one rejScheme none [.addNode nodeA] nodeA 0 .schemeError
    (by decide) (by decide) (by decide) (by decide)

/-- C7: on every reachable scene state, whenever the forward lookup
item_for_node finds an item for a node (the node was added and not
since removed), the reverse lookup node_for_item on that item returns
the original node: the two registries round-trip. -/
theorem C7_round_trip (s : Scheme) (reg : Option Registry) (ops : List Op) (n : Node) (i : Nat)
    (h : item_for_node (run (initScene s reg) ops) n = some i) :
    node_for_item (run (initScene s reg) ops) i = some n := by
  have hInv := inv_run s reg ops
  unfold node_for_item
  exact rev_lookup_round_trip hInv.mapValsNodup h

/-- C7 witness: the round trip evaluated on the demo scene. -/
theorem C7_round_trip_witness :
    item_for_node scA nodeA = some 0 ∧ node_for_item scA 0 = some nodeA :=
  ⟨by decide, C7_round_trip demoScheme none [.addNode nodeA] nodeA 0 (by decide)⟩

/-- add_node on a node that is already mapped returns the mapped item
and leaves the scene untouched. -/
theorem add_node_already (sc : CanvasScene) (n : Node) (i : Nat)
    (h : alookup sc.item_for_node n = some i) : add_node sc n = (.ok i, sc) := by
  unfold add_node
  rw [h]

/-- C8: add_node is idempotent.  On a reachable scene where the node
is not yet present, after a successful add_node the second add_node
with the same node returns the identical item and the identical scene
state (no second insertion, no re-registration of listeners), and the
node-item list contains the new item exactly once. -/
theorem C8_add_node_idempotent
    (s : Scheme) (reg : Option Registry) (ops : List Op) (n : Node) (i : Nat)
    (h0 : item_for_node (run (initScene s reg) ops) n = none)
    (h1 : (add_node (run (initScene s reg) ops) n).1 = .ok i) :
    add_node (add_node (run (initScene s reg) ops) n).2 n =
      (.ok i, (add_node (run (initScene s reg) ops) n).2) ∧
    (add_node (run (initScene s reg) ops) n).2.node_items.count i = 1 := by
  have hInv := inv_run s reg ops
  obtain ⟨hid, hmap, hnode, -, -, -⟩ := add_node_ok_spec _ n i hInv h0 h1
  constructor
  · have hlook : alookup ((add_node (run (initScene s reg) ops) n).2).item_for_node n
        = some i := by
      rw [hmap, alookup_append_of_none _ h0]
      simp [alookup, hid]
    exact add_node_already _ n i hlook
  · rw [hnode, hid, List.count_append]
    have hz : (run (initScene s reg) ops).node_items.count
        (run (initScene s reg) ops).next_id = 0 := by
      rw [List.count_eq_zero]
      intro hmem
      exact absurd (hInv.nodeLt _ hmem) (lt_irrefl _)
    rw [hz]
    simp

/-- C8 witness: idempotency evaluated on a fresh scene. -/
theorem C8_add_node_idempotent_witness :
    item_for_node (run (initScene demoScheme none) []) nodeA = none ∧
    (add_node (run (initScene demoScheme none) []) nodeA).1 = .ok 0 ∧
    (add_node (add_node (run (initScene demoScheme none) []) nodeA).2 nodeA =
      (.ok 0, (add_node (run (initScene demoScheme none) []) nodeA).2) ∧
     (add_node (run (initScene demoScheme none) []) nodeA).2.node_items.count 0 = 1) :=
  ⟨by decide, by decide,
    C8_add_node_idempotent demoScheme none [] nodeA 0 (by decide) (by decide)⟩

/-- C9 counterexample: a node whose stored position is exactly (0, 0)
is a set position, yet its item is placed at the default origin
(150, 150): the truthy tuple passes the stored-position check, but the
toolkit then reports the written (0, 0) as a null position and the
default placement overwrites it. -/
theorem C9_counterexample :
    nodeZero.position = some (0, 0) ∧
    (add_node (initScene demoScheme none) nodeZero).1 = .ok 0 ∧
    itemPos (add_node (initScene demoScheme none) nodeZero).2 0 = (150, 150) := by
  refine ⟨by decide, by decide, by decide⟩

/-- C9 (amended): on a reachable scene, a freshly added node item is
placed at the stored node position when one is set AND differs from
the null point (0, 0); when the position is unset or equal to (0, 0),
the item is placed to the right of the last node item by the fixed
offset (150, 0), or at the fixed origin (150, 150) when the scene
holds no node items. -/
theorem C9_placement (s : Scheme) (reg : Option Registry) (ops : List Op) (n : Node) (i : Nat)
    (h0 : item_for_node (run (initScene s reg) ops) n = none)
    (h1 : (add_node (run (initScene s reg) ops) n).1 = .ok i) :
    (∀ p, n.position = some p → p ≠ (0, 0) →
      itemPos (add_node (run (initScene s reg) ops) n).2 i = p) ∧
    ((n.position = none ∨ n.position = some (0, 0)) →
      (run (initScene s reg) ops).node_items = [] →
      itemPos (add_node (run (initScene s reg) ops) n).2 i = (150, 150)) ∧
    (∀ lastId, (n.position = none ∨ n.position = some (0, 0)) →
      (run (initScene s reg) ops).node_items.getLast? = some lastId →
      itemPos (add_node (run (initScene s reg) ops) n).2 i =
        ((itemPos (run (initScene s reg) ops) lastId).1 + 150,
         (itemPos (run (initScene s reg) ops) lastId).2)) := by
  have hInv := inv_run s reg ops
  obtain ⟨hid, -, -, -, -, hpos⟩ := add_node_ok_spec _ n i hInv h0 h1
  subst hid
  refine ⟨?_, ?_, ?_⟩
  · intro p hp hpz
    rw [hpos]
    unfold finalPos
    rw [hp]
    dsimp only
    rw [if_neg hpz]
  · intro hp hnil
    rw [hpos]
    unfold finalPos
    rcases hp with hp | hp
    · rw [hp]
      dsimp only
      rw [if_pos rfl, hnil]
      rfl
    · rw [hp]
      dsimp only
      rw [if_pos rfl, hnil]
      rfl
  · intro lastId hp hlast
    rw [hpos]
    unfold finalPos
    rcases hp with hp | hp
    · rw [hp]
      dsimp only
      rw [if_pos rfl, hlast]
    · rw [hp]
      dsimp only
      rw [if_pos rfl, hlast]

/-- C9 witness: the first node with no stored position lands at the
default origin. -/
theorem C9_placement_witness :
    item_for_node (run (initScene demoScheme none) []) nodeA = none ∧
    (add_node (run (initScene demoScheme none) []) nodeA).1 = .ok 0 ∧
    itemPos (add_node (run (initScene demoScheme none) []) nodeA).2 0 = (150, 150) := by
  refine ⟨by decide, by decide, ?_⟩
  exact (C9_placement demoScheme none [] nodeA 0 (by decide) (by decide)).2.1
    (Or.inl rfl) (by decide)

/-- C10: after a failed commit_scheme_node on an editable reachable
scene, the error is re-raised, the forward registry still maps the
node to the removed item, that item is no longer among the node items,
and the listener connections are untouched: the forward map and the
node-item list disagree, as the claim states. -/
theorem C10_failed_commit_inconsistency
    (s : Scheme) (reg : Option Registry) (ops : List Op) (n : Node) (itemId : Nat) (e : Err)
    (hed : (run (initScene s reg) ops).editable = true)
    (hn : item_for_node (run (initScene s reg) ops) n = some itemId)
    (hm : itemId ∈ (run (initScene s reg) ops).node_items)
    (hr : (run (initScene s reg) ops).scheme.rejectNode n = some e) :
    (commit_scheme_node (run (initScene s reg) ops) n).1 = .error e ∧
    item_for_node (commit_scheme_node (run (initScene s reg) ops) n).2 n = some itemId ∧
    itemId ∉ (commit_scheme_node (run (initScene s reg) ops) n).2.node_items ∧
    (commit_scheme_node (run (initScene s reg) ops) n).2.connections =
      (run (initScene s reg) ops).connections := by
  have hInv := inv_run s reg ops
  obtain ⟨h1, h2, h3, -, h5, -, -, -⟩ := commit_node_fail_spec _ n itemId e hed hn hm hr
  refine ⟨h1, ?_, ?_, h5⟩
  · unfold item_for_node
    rw [h2]
    exact hn
  · rw [h3]
    exact hInv.nodeNodup.not_mem_erase

/-- C10 witness: the inconsistency evaluated on the demo scene. -/
theorem C10_failed_commit_inconsistency_witness :
    (commit_scheme_node scRejNode nodeA).1 = .error .schemeError ∧
    item_for_node (commit_scheme_node scRejNode nodeA).2 nodeA = some 0 ∧
    0 ∉ (commit_scheme_node scRejNode nodeA).2.node_items ∧
    (commit_scheme_node scRejNode nodeA).2.connections = scRejNode.connections :=
  C10_failed_commit_inconsistency rejScheme none [.addNode nodeA] nodeA 0 .schemeError
    (by decide) (by decide) (by decide) (by decide)

end Claims

end OrangeScene
